import Mathlib

/-!
Verification of `src/agents/models/openrouter_provider.py` from the
`openai-agents-python` repository.

The file under verification defines `OpenRouterProvider`, a subclass of
`OpenAIProvider` that fixes the gateway base URL, forces the
chat-completions wire format, injects two optional attribution headers
into the lazily created client, and resolves model names (substituting a
default when the name is `None`).

The embedding below models the client handle's header mapping as an
association list with unique-key dict semantics, and threads the
provider's mutable client cache explicitly (state passing).  The base
class `OpenAIProvider` is part of the repository but its source is not
available here; its constructor and lazy client creation are modelled
from the spec, as marked in the doc comments.
-/

namespace OpenRouter

/-- Header mapping of the HTTP client: a string-keyed association list.
Dict semantics (membership test, assignment) are given by the functions
below. -/
abbrev Headers := List (String × String)

/-- Membership test `k in d` on a header mapping. -/
def hdrContains (hs : Headers) (k : String) : Bool :=
  hs.any (fun kv => kv.1 == k)

/-- Assignment `d[k] = v` on a header mapping: overwrite the value when
the key is present, append the pair otherwise. -/
def hdrSet (hs : Headers) (k v : String) : Headers :=
  if hdrContains hs k then
    hs.map (fun kv => if kv.1 == k then (kv.1, v) else kv)
  else
    hs ++ [(k, v)]

/-- Lookup `d.get(k)` on a header mapping. -/
def hdrGet (hs : Headers) (k : String) : Option String :=
  (hs.find? (fun kv => kv.1 == k)).map (fun kv => kv.2)

/-- Number of entries of a header mapping carrying the key `k`.  Under
dict semantics this is 0 or 1; it is used to state that a header is set
exactly once, never duplicated. -/
def countKey (hs : Headers) (k : String) : Nat :=
  (hs.filter (fun kv => kv.1 == k)).length

/-- Python truthiness of an optional string (`if self._http_referer:`):
false for `None` and for the empty string, true otherwise. -/
def truthy : Option String → Bool
  | none => false
  | some s => !s.isEmpty

/-- The `AsyncOpenAI` client handle, as far as this module observes it: a
base endpoint, an optional credential, and a mutable header mapping. -/
structure AsyncOpenAI where
  base_url : String
  api_key : Option String
  default_headers : Headers
deriving DecidableEq

/-- State of the base class `OpenAIProvider`: the stored construction
arguments and the lazily created, cached client handle.

Modelled from the spec: the base class `OpenAIProvider` is code of this
repository not present under `src/`; per the spec its constructor stores
the credential, the base endpoint and the chat-format selector, and its
client is "lazily-created … created at most once and reused". -/
structure OpenAIProviderState where
  api_key : Option String
  base_url : String
  use_responses : Bool
  client_cache : Option AsyncOpenAI
deriving DecidableEq

/-- Construction of the base provider (`OpenAIProvider.__init__`).

Modelled from the spec: stores the three arguments; no client exists yet
(lazy creation), and no validation is performed. -/
def OpenAIProviderState.init (api_key : Option String) (base_url : String)
    (use_responses : Bool) : OpenAIProviderState :=
  { api_key := api_key, base_url := base_url, use_responses := use_responses,
    client_cache := none }

/-- Lazy client acquisition of the base provider (`OpenAIProvider._get_client`).

Modelled from the spec: on first call creates a client handle "configured
with a fixed base endpoint and a header mapping" from the stored
configuration and caches it; on every later call returns the cached
handle unchanged ("created at most once and reused"). -/
def OpenAIProviderState.get_client (s : OpenAIProviderState) :
    AsyncOpenAI × OpenAIProviderState :=
  match s.client_cache with
  | some c => (c, s)
  | none =>
    let c : AsyncOpenAI :=
      { base_url := s.base_url, api_key := s.api_key, default_headers := [] }
    (c, { s with client_cache := some c })

/-- The wire-format style of a model object.  The source module only ever
constructs the chat-completions style. -/
inductive ModelStyle where
  | chatCompletions
  | responses
deriving DecidableEq

/-- A resolved model reference: the style of the object constructed, the
model-name string it is bound to, and the borrowed client handle. -/
structure Model where
  style : ModelStyle
  model : String
  openai_client : AsyncOpenAI
deriving DecidableEq

/-- Constructor `OpenAIChatCompletionsModel(model=…, openai_client=…)`:
always produces a chat-completions-style model object. -/
def OpenAIChatCompletionsModel (model : String) (openai_client : AsyncOpenAI) :
    Model :=
  { style := ModelStyle.chatCompletions, model := model,
    openai_client := openai_client }

/-- Module-level constant `DEFAULT_MODEL` of the source file. -/
def DEFAULT_MODEL : String := "openai/gpt-4o"

/-- State of an `OpenRouterProvider` instance: the inherited base-class
state plus the two attribution values stored by its constructor. -/
structure OpenRouterProvider where
  base : OpenAIProviderState
  http_referer : Option String
  site_title : Option String
deriving DecidableEq

/-- Constructor `OpenRouterProvider.__init__`: delegates to the base
constructor with the fixed gateway URL and `use_responses=False`, then
stores the two attribution values.  The `use_responses` parameter is
accepted but ignored (kept for compatibility), exactly as in the source. -/
def OpenRouterProvider.init (api_key : Option String)
    (http_referer : Option String) (site_title : Option String)
    (_use_responses : Option Bool) : OpenRouterProvider :=
  { base := OpenAIProviderState.init api_key "https://openrouter.ai/api/v1" false,
    http_referer := http_referer,
    site_title := site_title }

/-- Shape shared by the two header-injection statements of
`OpenRouterProvider._get_client`: `if <value truthy> and <key> not in
client.default_headers: client.default_headers[<key>] = <value>`. -/
def injectHeader (guard : Bool) (key v : String) (c : AsyncOpenAI) : AsyncOpenAI :=
  if guard && !hdrContains c.default_headers key then
    { c with default_headers := hdrSet c.default_headers key v }
  else c

/-- First header-injection statement of `OpenRouterProvider._get_client`:
`if self._http_referer and "HTTP-Referer" not in client.default_headers:
client.default_headers["HTTP-Referer"] = self._http_referer`. -/
def injectReferer (p : OpenRouterProvider) (c : AsyncOpenAI) : AsyncOpenAI :=
  injectHeader (truthy p.http_referer) "HTTP-Referer" (p.http_referer.getD "") c

/-- Second header-injection statement of `OpenRouterProvider._get_client`:
`if self._site_title and "X-Title" not in client.default_headers:
client.default_headers["X-Title"] = self._site_title`. -/
def injectTitle (p : OpenRouterProvider) (c : AsyncOpenAI) : AsyncOpenAI :=
  injectHeader (truthy p.site_title) "X-Title" (p.site_title.getD "") c

/-- Method `OpenRouterProvider._get_client`: obtains the client from the
base class (creating and caching it on first use), then runs the two
header-injection statements.  The Python mutation of
`client.default_headers` happens in place on the cached object, so the
cache in the returned state holds the updated handle. -/
def OpenRouterProvider.get_client (p : OpenRouterProvider) :
    AsyncOpenAI × OpenRouterProvider :=
  let r := p.base.get_client
  let client := injectTitle p (injectReferer p r.1)
  (client, { p with base := { r.2 with client_cache := some client } })

/-- Method `OpenRouterProvider.get_model`: substitutes `DEFAULT_MODEL`
when the argument is `None`, acquires the client, and returns a
chat-completions model object bound to the resolved name and the client. -/
def OpenRouterProvider.get_model (p : OpenRouterProvider)
    (model_name : Option String) : Model × OpenRouterProvider :=
  let name := match model_name with
    | none => DEFAULT_MODEL
    | some s => s
  let r := p.get_client
  (OpenAIChatCompletionsModel name r.1, r.2)

/-- Header mapping of the client handle before a call to `_get_client`
touches it: the cached client's headers, or the fresh client's (empty)
headers when no client exists yet. -/
def preHeaders (p : OpenRouterProvider) : Headers :=
  match p.base.client_cache with
  | some c => c.default_headers
  | none => []

/-- Providers reachable through the module's public operations: a freshly
constructed instance, or the post-state of a client acquisition or a
model resolution. -/
inductive Reachable : OpenRouterProvider → Prop where
  | init : ∀ k r t u, Reachable (OpenRouterProvider.init k r t u)
  | step_client : ∀ p, Reachable p → Reachable (p.get_client).2
  | step_model : ∀ p n, Reachable p → Reachable (p.get_model n).2

/-- Invariant stating that a provider state is bound to the fixed gateway
endpoint: the stored base URL, and the cached client handle when one
exists, both carry `https://openrouter.ai/api/v1`. -/
def BaseURLOK (p : OpenRouterProvider) : Prop :=
  p.base.base_url = "https://openrouter.ai/api/v1"
    ∧ ∀ c, p.base.client_cache = some c →
        c.base_url = "https://openrouter.ai/api/v1"

/-- Exception-aware embedding of `OpenRouterProvider.__init__`.  The
constructor body contains no `raise` statement and no validation, so its
embedding into `Except` always returns `ok`. -/
def OpenRouterProvider.initE (api_key : Option String)
    (http_referer : Option String) (site_title : Option String)
    (use_responses : Option Bool) : Except String OpenRouterProvider :=
  Except.ok (OpenRouterProvider.init api_key http_referer site_title use_responses)

/-- Exception-aware embedding of `OpenRouterProvider._get_client`.  The
method body (including the base class's acquisition as modelled from the
spec) contains no `raise` statement, so its embedding into `Except`
always returns `ok`. -/
def OpenRouterProvider.get_clientE (p : OpenRouterProvider) :
    Except String (AsyncOpenAI × OpenRouterProvider) :=
  Except.ok p.get_client

/-- Exception-aware embedding of `OpenRouterProvider.get_model`.  The
method body contains no `raise` statement and no validation of the model
name, so its embedding into `Except` always returns `ok`. -/
def OpenRouterProvider.get_modelE (p : OpenRouterProvider)
    (model_name : Option String) : Except String (Model × OpenRouterProvider) :=
  Except.ok (p.get_model model_name)

/-- Concrete provider used by the closed witness theorems: all values
present, with a client already cached whose header mapping holds a
pre-existing attribution header and an unrelated header. -/
def sampleProvider : OpenRouterProvider :=
  { base :=
      { api_key := some "sk-test", base_url := "https://openrouter.ai/api/v1",
        use_responses := false,
        client_cache := some
          { base_url := "https://openrouter.ai/api/v1", api_key := some "sk-test",
            default_headers := [("HTTP-Referer", "https://pre.example"),
                                ("Accept", "application/json")] } },
    http_referer := some "https://my.example",
    site_title := some "My Site" }

/-- Concrete provider used by witness theorems for absent attribution:
referer is `None` and the title is the empty string, both falsy. -/
def sampleNoAttr : OpenRouterProvider :=
  OpenRouterProvider.init (some "sk-test") none (some "") none

/-!  Lemmas about the header mapping. -/

lemma find?_eq_none_of_not_contains (hs : Headers) (k : String)
    (h : hdrContains hs k = false) : hs.find? (fun kv => kv.1 == k) = none := by
  induction hs with
  | nil => rfl
  | cons a tl ih =>
    simp only [hdrContains, List.any_cons, Bool.or_eq_false_iff] at h
    simp only [List.find?, h.1]
    exact ih (by simpa [hdrContains] using h.2)

lemma hdrGet_of_not_contains (hs : Headers) (k : String)
    (h : hdrContains hs k = false) : hdrGet hs k = none := by
  simp [hdrGet, find?_eq_none_of_not_contains hs k h]

lemma hdrGet_isSome_of_contains (hs : Headers) (k : String)
    (h : hdrContains hs k = true) : (hdrGet hs k).isSome = true := by
  induction hs with
  | nil => simp [hdrContains] at h
  | cons a tl ih =>
    simp only [hdrContains, List.any_cons, Bool.or_eq_true] at h
    by_cases ha : (a.1 == k) = true
    · simp [hdrGet, List.find?, ha]
    · simp only [ha, false_or] at h
      simpa [hdrGet, List.find?, ha] using ih (by simpa [hdrContains] using h)

lemma hdrSet_of_not_contains (hs : Headers) (k v : String)
    (h : hdrContains hs k = false) : hdrSet hs k v = hs ++ [(k, v)] := by
  simp [hdrSet, h]

lemma hdrGet_append (hs₁ hs₂ : Headers) (k : String)
    (h : hdrContains hs₁ k = false) :
    hdrGet (hs₁ ++ hs₂) k = hdrGet hs₂ k := by
  induction hs₁ with
  | nil => rfl
  | cons a tl ih =>
    simp only [hdrContains, List.any_cons, Bool.or_eq_false_iff] at h
    simp only [List.cons_append, hdrGet, List.find?, h.1]
    exact ih (by simpa [hdrContains] using h.2)

lemma hdrGet_hdrSet_self (hs : Headers) (k v : String)
    (h : hdrContains hs k = false) : hdrGet (hdrSet hs k v) k = some v := by
  rw [hdrSet_of_not_contains hs k v h, hdrGet_append hs [(k, v)] k h]
  simp [hdrGet, List.find?]

lemma hdrGet_hdrSet_other (hs : Headers) (k v k' : String)
    (hne : (k' == k) = false) (h : hdrContains hs k = false) :
    hdrGet (hdrSet hs k v) k' = hdrGet hs k' := by
  rw [hdrSet_of_not_contains hs k v h]
  clear h
  induction hs with
  | nil =>
    have : (k == k') = false := by
      rcases Bool.eq_false_iff.mp hne with hne'
      exact beq_eq_false_iff_ne.mpr fun he => hne' (by simp [he])
    simp [hdrGet, List.find?, this]
  | cons a tl ih =>
    by_cases ha : (a.1 == k') = true
    · simp [hdrGet, List.find?, ha]
    · simp only [List.cons_append, hdrGet, List.find?, ha]
      simpa [hdrGet] using ih

lemma hdrContains_hdrSet_self (hs : Headers) (k v : String)
    (h : hdrContains hs k = false) :
    hdrContains (hdrSet hs k v) k = true := by
  rw [hdrSet_of_not_contains hs k v h]
  simp [hdrContains, List.any_append]

lemma hdrContains_hdrSet_other (hs : Headers) (k v k' : String)
    (hne : (k' == k) = false) (h : hdrContains hs k = false) :
    hdrContains (hdrSet hs k v) k' = hdrContains hs k' := by
  rw [hdrSet_of_not_contains hs k v h]
  have : (k == k') = false := by
    rcases Bool.eq_false_iff.mp hne with hne'
    exact beq_eq_false_iff_ne.mpr fun he => hne' (by simp [he])
  simp [hdrContains, List.any_append, this]

lemma countKey_of_not_contains (hs : Headers) (k : String)
    (h : hdrContains hs k = false) : countKey hs k = 0 := by
  induction hs with
  | nil => rfl
  | cons a tl ih =>
    simp only [hdrContains, List.any_cons, Bool.or_eq_false_iff] at h
    simp only [countKey, List.filter, h.1]
    exact ih (by simpa [hdrContains] using h.2)

lemma countKey_hdrSet_self (hs : Headers) (k v : String)
    (h : hdrContains hs k = false) : countKey (hdrSet hs k v) k = 1 := by
  rw [hdrSet_of_not_contains hs k v h]
  have h0 : countKey hs k = 0 := countKey_of_not_contains hs k h
  simp only [countKey, List.filter_append] at *
  simp [List.length_append, h0, List.filter]

lemma countKey_hdrSet_other (hs : Headers) (k v k' : String)
    (hne : (k' == k) = false) (h : hdrContains hs k = false) :
    countKey (hdrSet hs k v) k' = countKey hs k' := by
  rw [hdrSet_of_not_contains hs k v h]
  have : (k == k') = false := by
    rcases Bool.eq_false_iff.mp hne with hne'
    exact beq_eq_false_iff_ne.mpr fun he => hne' (by simp [he])
  simp [countKey, List.filter_append, List.filter, this]

/-!  Lemmas about a single header-injection statement. -/

lemma injectHeader_base_url (g : Bool) (k v : String) (c : AsyncOpenAI) :
    (injectHeader g k v c).base_url = c.base_url := by
  unfold injectHeader
  split <;> rfl

lemma injectHeader_of_guard_false (k v : String) (c : AsyncOpenAI) :
    injectHeader false k v c = c := by
  simp [injectHeader]

lemma injectHeader_of_contains (g : Bool) (k v : String) (c : AsyncOpenAI)
    (h : hdrContains c.default_headers k = true) :
    injectHeader g k v c = c := by
  simp [injectHeader, h]

lemma injectHeader_contains_self (g : Bool) (k v : String) (c : AsyncOpenAI) :
    hdrContains (injectHeader g k v c).default_headers k
      = (g || hdrContains c.default_headers k) := by
  unfold injectHeader
  cases hc : hdrContains c.default_headers k with
  | true => cases g <;> simp [hc]
  | false =>
    cases g with
    | true => simp [hc, hdrContains_hdrSet_self c.default_headers k v hc]
    | false => simp [hc]

lemma injectHeader_contains_other (g : Bool) (k v k' : String)
    (hne : (k' == k) = false) (c : AsyncOpenAI) :
    hdrContains (injectHeader g k v c).default_headers k'
      = hdrContains c.default_headers k' := by
  unfold injectHeader
  split
  · rename_i hcond
    have hc : hdrContains c.default_headers k = false := by
      cases hc : hdrContains c.default_headers k
      · rfl
      · simp [hc] at hcond
    simpa using hdrContains_hdrSet_other c.default_headers k v k' hne hc
  · rfl

lemma injectHeader_hdrGet_other (g : Bool) (k v k' : String)
    (hne : (k' == k) = false) (c : AsyncOpenAI) :
    hdrGet (injectHeader g k v c).default_headers k'
      = hdrGet c.default_headers k' := by
  unfold injectHeader
  split
  · rename_i hcond
    have hc : hdrContains c.default_headers k = false := by
      cases hc : hdrContains c.default_headers k
      · rfl
      · simp [hc] at hcond
    simpa using hdrGet_hdrSet_other c.default_headers k v k' hne hc
  · rfl

lemma injectHeader_countKey_other (g : Bool) (k v k' : String)
    (hne : (k' == k) = false) (c : AsyncOpenAI) :
    countKey (injectHeader g k v c).default_headers k'
      = countKey c.default_headers k' := by
  unfold injectHeader
  split
  · rename_i hcond
    have hc : hdrContains c.default_headers k = false := by
      cases hc : hdrContains c.default_headers k
      · rfl
      · simp [hc] at hcond
    simpa using countKey_hdrSet_other c.default_headers k v k' hne hc
  · rfl

lemma injectHeader_hdrGet_self (k v : String) (c : AsyncOpenAI) :
    hdrGet (injectHeader true k v c).default_headers k
      = some ((hdrGet c.default_headers k).getD v) := by
  unfold injectHeader
  cases hc : hdrContains c.default_headers k with
  | true =>
    have := hdrGet_isSome_of_contains c.default_headers k hc
    obtain ⟨w, hw⟩ := Option.isSome_iff_exists.mp this
    simp [hc, hw]
  | false =>
    have hnone := hdrGet_of_not_contains c.default_headers k hc
    simp [hc, hdrGet_hdrSet_self c.default_headers k v hc, hnone]

lemma injectHeader_countKey_self (k v : String) (c : AsyncOpenAI) :
    countKey (injectHeader true k v c).default_headers k
      = (if hdrContains c.default_headers k then countKey c.default_headers k
         else 1) := by
  unfold injectHeader
  cases hc : hdrContains c.default_headers k with
  | true => simp [hc]
  | false => simp [hc, countKey_hdrSet_self c.default_headers k v hc]

/-!  Lemmas about the provider operations. -/

lemma base_get_client_headers (p : OpenRouterProvider) :
    (p.base.get_client).1.default_headers = preHeaders p := by
  unfold OpenAIProviderState.get_client preHeaders
  cases p.base.client_cache <;> rfl

lemma get_client_cache (p : OpenRouterProvider) :
    (p.get_client).2.base.client_cache = some (p.get_client).1 := rfl

lemma get_client_http_referer (p : OpenRouterProvider) :
    (p.get_client).2.http_referer = p.http_referer := rfl

lemma get_client_site_title (p : OpenRouterProvider) :
    (p.get_client).2.site_title = p.site_title := rfl

lemma get_client_client_eq (p : OpenRouterProvider) :
    (p.get_client).1 = injectTitle p (injectReferer p (p.base.get_client).1) := rfl

lemma title_ne_referer : (("X-Title" : String) == "HTTP-Referer") = false := by
  decide

lemma referer_ne_title : (("HTTP-Referer" : String) == "X-Title") = false := by
  decide

lemma get_client_contains_referer (p : OpenRouterProvider)
    (h : truthy p.http_referer = true) :
    hdrContains (p.get_client).1.default_headers "HTTP-Referer" = true := by
  rw [get_client_client_eq]
  unfold injectTitle
  rw [injectHeader_contains_other _ _ _ _ referer_ne_title]
  unfold injectReferer
  rw [injectHeader_contains_self, h]
  rfl

lemma get_client_contains_title (p : OpenRouterProvider)
    (h : truthy p.site_title = true) :
    hdrContains (p.get_client).1.default_headers "X-Title" = true := by
  rw [get_client_client_eq]
  unfold injectTitle
  rw [injectHeader_contains_self, h]
  rfl

lemma injectHeader_idem_after (g : Bool) (k v : String) (c : AsyncOpenAI)
    (h : g = true → hdrContains c.default_headers k = true) :
    injectHeader g k v c = c := by
  cases g with
  | false => exact injectHeader_of_guard_false k v c
  | true => exact injectHeader_of_contains true k v c (h rfl)

lemma cache_update_self (s : OpenAIProviderState) (c : AsyncOpenAI)
    (h : s.client_cache = some c) :
    { s with client_cache := some c } = s := by
  obtain ⟨a, b, u, cc⟩ := s
  cases h
  rfl

lemma provider_cache_update_self (q : OpenRouterProvider) (c : AsyncOpenAI)
    (h : q.base.client_cache = some c) :
    { q with base := { q.base with client_cache := some c } } = q := by
  obtain ⟨⟨a, b, u, cc⟩, r, t⟩ := q
  cases h
  rfl

lemma base_get_client_state_base_url (s : OpenAIProviderState) :
    (s.get_client).2.base_url = s.base_url := by
  unfold OpenAIProviderState.get_client
  split <;> rfl

lemma get_client_base_url_of_ok (p : OpenRouterProvider) (h : BaseURLOK p) :
    (p.get_client).1.base_url = "https://openrouter.ai/api/v1" := by
  rw [get_client_client_eq]
  unfold injectTitle injectReferer
  rw [injectHeader_base_url, injectHeader_base_url]
  unfold OpenAIProviderState.get_client
  split
  · rename_i c hc
    exact h.2 c hc
  · exact h.1

lemma get_client_preserves_ok (p : OpenRouterProvider) (h : BaseURLOK p) :
    BaseURLOK (p.get_client).2 := by
  constructor
  · show ((p.base.get_client).2).base_url = _
    rw [base_get_client_state_base_url]
    exact h.1
  · intro c hc
    rw [get_client_cache p] at hc
    cases hc
    exact get_client_base_url_of_ok p h

lemma get_model_state (p : OpenRouterProvider) (n : Option String) :
    (p.get_model n).2 = (p.get_client).2 := rfl

lemma reachable_ok (p : OpenRouterProvider) (h : Reachable p) : BaseURLOK p := by
  induction h with
  | init k r t u => exact ⟨rfl, fun c hc => by cases hc⟩
  | step_client q _ ih => exact get_client_preserves_ok q ih
  | step_model q n _ ih =>
    rw [get_model_state q n]
    exact get_client_preserves_ok q ih

/-!  Claim theorems. -/

/-- C3: client acquisition is idempotent: for every provider state, a
second call to `_get_client` returns the same client value as the first
call (equal header mapping, nothing duplicated or re-set) and leaves the
provider state unchanged; the handle returned by the first call is the
one held in the cache. -/
theorem get_client_idempotent (p : OpenRouterProvider) :
    ((p.get_client).2).get_client = ((p.get_client).1, (p.get_client).2)
      ∧ (p.get_client).2.base.client_cache = some (p.get_client).1 := by
  refine ⟨?_, get_client_cache p⟩
  have h2 : injectReferer (p.get_client).2 (p.get_client).1 = (p.get_client).1 := by
    unfold injectReferer
    exact injectHeader_idem_after _ _ _ _ fun hg => get_client_contains_referer p hg
  have h3 : injectTitle (p.get_client).2 (p.get_client).1 = (p.get_client).1 := by
    unfold injectTitle
    exact injectHeader_idem_after _ _ _ _ fun hg => get_client_contains_title p hg
  have hfst : (((p.get_client).2).get_client).1 = (p.get_client).1 := by
    show injectTitle (p.get_client).2
        (injectReferer (p.get_client).2 (p.get_client).1) = (p.get_client).1
    rw [h2, h3]
  have hsnd : (((p.get_client).2).get_client).2 = (p.get_client).2 := by
    have e : (((p.get_client).2).get_client).2
        = { p.get_client.2 with base := { p.get_client.2.base with client_cache := some (p.get_client.2.get_client.1) } } := rfl
    rw [e, hfst]
    exact provider_cache_update_self (p.get_client).2 (p.get_client).1
      (get_client_cache p)
  exact Prod.ext hfst hsnd

/-- C4: for a provider whose referer (resp. title) configuration value is
absent or empty, `_get_client` never sets the `HTTP-Referer` (resp.
`X-Title`) header: the header's lookup result is unchanged from the
mapping the call started from, and the configuration — hence the
behaviour of every later call — is preserved; the call raises no error. -/
theorem absent_attribution_never_set (p : OpenRouterProvider) :
    (truthy p.http_referer = false →
        hdrGet (p.get_client).1.default_headers "HTTP-Referer"
            = hdrGet (preHeaders p) "HTTP-Referer"
          ∧ (p.get_client).2.http_referer = p.http_referer)
      ∧ (truthy p.site_title = false →
          hdrGet (p.get_client).1.default_headers "X-Title"
              = hdrGet (preHeaders p) "X-Title"
            ∧ (p.get_client).2.site_title = p.site_title)
      ∧ p.get_clientE = Except.ok p.get_client := by
  refine ⟨fun hg => ⟨?_, rfl⟩, fun hg => ⟨?_, rfl⟩, rfl⟩
  · rw [get_client_client_eq]
    unfold injectTitle injectReferer
    rw [injectHeader_hdrGet_other _ _ _ _ referer_ne_title, hg,
      injectHeader_of_guard_false, base_get_client_headers]
  · rw [get_client_client_eq]
    unfold injectTitle injectReferer
    rw [hg, injectHeader_of_guard_false,
      injectHeader_hdrGet_other _ _ _ _ title_ne_referer, base_get_client_headers]

/-- Witness for C4: a provider with referer `None` and an empty title
leaves both attribution headers unset. -/
theorem absent_attribution_never_set_witness :
    truthy sampleNoAttr.http_referer = false
      ∧ truthy sampleNoAttr.site_title = false
      ∧ hdrGet (sampleNoAttr.get_client).1.default_headers "HTTP-Referer"
          = hdrGet (preHeaders sampleNoAttr) "HTTP-Referer"
      ∧ hdrGet (sampleNoAttr.get_client).1.default_headers "X-Title"
          = hdrGet (preHeaders sampleNoAttr) "X-Title" :=
  ⟨by decide, by decide,
   ((absent_attribution_never_set sampleNoAttr).1 (by decide)).1,
   ((absent_attribution_never_set sampleNoAttr).2.1 (by decide)).1⟩

/-- C5: for a provider with a non-empty referer (resp. title) value,
`_get_client` leaves a pre-existing `HTTP-Referer` (resp. `X-Title`)
header value unchanged, otherwise sets the header to the configured
value with exactly one entry for that key; every other key of the header
mapping is left unchanged. -/
theorem present_attribution_set_once (p : OpenRouterProvider) :
    (truthy p.http_referer = true →
        hdrGet (p.get_client).1.default_headers "HTTP-Referer"
            = some ((hdrGet (preHeaders p) "HTTP-Referer").getD
                (p.http_referer.getD ""))
          ∧ countKey (p.get_client).1.default_headers "HTTP-Referer"
            = (if hdrContains (preHeaders p) "HTTP-Referer" then
                 countKey (preHeaders p) "HTTP-Referer" else 1))
      ∧ (truthy p.site_title = true →
          hdrGet (p.get_client).1.default_headers "X-Title"
              = some ((hdrGet (preHeaders p) "X-Title").getD
                  (p.site_title.getD ""))
            ∧ countKey (p.get_client).1.default_headers "X-Title"
              = (if hdrContains (preHeaders p) "X-Title" then
                   countKey (preHeaders p) "X-Title" else 1))
      ∧ ∀ k, (k == "HTTP-Referer") = false → (k == "X-Title") = false →
          hdrGet (p.get_client).1.default_headers k = hdrGet (preHeaders p) k := by
  refine ⟨fun hg => ⟨?_, ?_⟩, fun hg => ⟨?_, ?_⟩, fun k hk1 hk2 => ?_⟩
  · rw [get_client_client_eq]
    unfold injectTitle injectReferer
    rw [injectHeader_hdrGet_other _ _ _ _ referer_ne_title, hg,
      injectHeader_hdrGet_self, base_get_client_headers]
  · rw [get_client_client_eq]
    unfold injectTitle injectReferer
    rw [injectHeader_countKey_other _ _ _ _ referer_ne_title, hg,
      injectHeader_countKey_self, base_get_client_headers]
  · rw [get_client_client_eq]
    unfold injectTitle injectReferer
    rw [hg, injectHeader_hdrGet_self,
      injectHeader_hdrGet_other _ _ _ _ title_ne_referer, base_get_client_headers]
  · rw [get_client_client_eq]
    unfold injectTitle injectReferer
    rw [hg, injectHeader_countKey_self,
      injectHeader_contains_other _ _ _ _ title_ne_referer,
      injectHeader_countKey_other _ _ _ _ title_ne_referer,
      base_get_client_headers]
  · rw [get_client_client_eq]
    unfold injectTitle injectReferer
    rw [injectHeader_hdrGet_other _ _ _ _ hk2,
      injectHeader_hdrGet_other _ _ _ _ hk1, base_get_client_headers]

/-- Witness for C5: on a provider whose cached client already carries a
pre-existing `HTTP-Referer` header and an unrelated `Accept` header,
acquisition keeps the referer lookup described by the theorem and leaves
`Accept` unchanged. -/
theorem present_attribution_set_once_witness :
    truthy sampleProvider.http_referer = true
      ∧ truthy sampleProvider.site_title = true
      ∧ hdrGet (sampleProvider.get_client).1.default_headers "HTTP-Referer"
          = some ((hdrGet (preHeaders sampleProvider) "HTTP-Referer").getD
              (sampleProvider.http_referer.getD ""))
      ∧ hdrGet (sampleProvider.get_client).1.default_headers "Accept"
          = hdrGet (preHeaders sampleProvider) "Accept" :=
  ⟨by decide, by decide,
   ((present_attribution_set_once sampleProvider).1 (by decide)).1,
   (present_attribution_set_once sampleProvider).2.2 "Accept" (by decide)
     (by decide)⟩

/-- C7: for every reachable provider state — in particular for every
combination of construction parameters — the client handle produced by
client acquisition, and the handle a resolved model is bound to, carry
the fixed base endpoint `https://openrouter.ai/api/v1`. -/
theorem client_base_url_fixed (p : OpenRouterProvider) (h : Reachable p) :
    (p.get_client).1.base_url = "https://openrouter.ai/api/v1"
      ∧ ∀ n, ((p.get_model n).1).openai_client.base_url
          = "https://openrouter.ai/api/v1" := by
  have hok := reachable_ok p h
  exact ⟨get_client_base_url_of_ok p hok,
         fun n => get_client_base_url_of_ok p hok⟩

/-- Witness for C7: the fixed endpoint of a freshly constructed provider,
with the ignored legacy flag explicitly set. -/
theorem client_base_url_fixed_witness :
    ((OpenRouterProvider.init none none none (some true)).get_client).1.base_url
      = "https://openrouter.ai/api/v1" :=
  (client_base_url_fixed (OpenRouterProvider.init none none none (some true))
    (Reachable.init none none none (some true))).1

/-- C1: for every call to `get_model` with an absent (`None`) model name,
the returned model object is bound to exactly the default model
identifier `"openai/gpt-4o"`. -/
theorem get_model_none_uses_default (p : OpenRouterProvider) :
    ((p.get_model none).1).model = DEFAULT_MODEL
      ∧ DEFAULT_MODEL = "openai/gpt-4o" :=
  ⟨rfl, rfl⟩

/-- C2: for every non-`None` model-name string passed to `get_model`, the
returned model object is bound to exactly that string, unmodified: no
prefix parsing, rewriting or validation happens on any input string. -/
theorem get_model_some_exact (p : OpenRouterProvider) (name : String) :
    ((p.get_model (some name)).1).model = name :=
  rfl

/-- C6: the legacy `use_responses` construction parameter has no influence
on behaviour: constructions differing only in that parameter produce
identical providers, and the base provider's chat-format selector is
always initialized to `False`. -/
theorem use_responses_ignored (k r t : Option String) (u₁ u₂ : Option Bool) :
    OpenRouterProvider.init k r t u₁ = OpenRouterProvider.init k r t u₂
      ∧ (OpenRouterProvider.init k r t u₁).base.use_responses = false :=
  ⟨rfl, rfl⟩

/-- C8: for every input model name (absent or present), `get_model`
returns a chat-completions-style model object bound to the client handle
acquired through `_get_client`; a responses-style object is never
produced. -/
theorem get_model_always_chat (p : OpenRouterProvider) (n : Option String) :
    ((p.get_model n).1).style = ModelStyle.chatCompletions
      ∧ ((p.get_model n).1).openai_client = (p.get_client).1 :=
  ⟨rfl, rfl⟩

/-- C9: construction, client acquisition and model resolution raise no
error and perform no validation: on every input — absent credential,
absent attribution values, empty or arbitrary model names — the
exception-aware embeddings return `ok` of the corresponding pure result. -/
theorem no_operation_raises (k r t : Option String) (u : Option Bool)
    (p : OpenRouterProvider) (n : Option String) :
    OpenRouterProvider.initE k r t u = Except.ok (OpenRouterProvider.init k r t u)
      ∧ p.get_clientE = Except.ok p.get_client
      ∧ p.get_modelE n = Except.ok (p.get_model n)
      ∧ (OpenRouterProvider.initE none none none none).isOk = true
      ∧ (p.get_modelE (some "")).isOk = true :=
  ⟨rfl, rfl, rfl, rfl, rfl⟩

/-- C10: the default model name is substituted only when the argument is
exactly `None`: for the empty string the returned model is bound to the
empty string itself, not to the default identifier. -/
theorem get_model_empty_string_not_default (p : OpenRouterProvider) :
    ((p.get_model (some "")).1).model = ""
      ∧ ((p.get_model (some "")).1).model ≠ DEFAULT_MODEL :=
  ⟨rfl, by show ("" : String) ≠ DEFAULT_MODEL; decide⟩

end OpenRouter
